import Mathlib

/-!
Verification of the MathSIMD vector/quaternion kernel (MathSIMD.h, namespace King).

The source stores every vector-family value as four packed 32-bit float lanes
(DirectX::XMVECTORF32).  Two shallow embeddings are used here:

* an exact-lane model (namespace DirectX / King) whose lanes are rationals.
  Every claim settled over this model involves only additions, subtractions,
  multiplications and comparisons of small integer-valued (or short decimal)
  inputs, on which IEEE-754 single arithmetic is exact, so the rational model
  agrees bit-for-bit with the float code at those inputs;

* an extended-lane model (namespace KingE) whose lanes are rationals extended
  with +Infinity, -Infinity and NaN, for the validity / NaN-policy claims.

DirectXMath library functions called by the source (XMVector2Equal,
XMQuaternionMultiply, XMVector3Rotate, ...) are embedded componentwise from
their published reference implementations.
-/

namespace DirectX

/-- Exact-lane model of DirectX::XMVECTOR: four packed float lanes, each lane
modelled as a rational. -/
structure XMVECTOR where
  x : ℚ
  y : ℚ
  z : ℚ
  w : ℚ
deriving DecidableEq, Repr

/-- Comparison-mask result of the per-lane XMVectorLess / XMVectorLessOrEqual
comparisons (the source's all-ones / all-zeros lane masks). -/
structure XMMASK where
  mx : Bool
  my : Bool
  mz : Bool
  mw : Bool
deriving DecidableEq, Repr

def XMVectorZero : XMVECTOR := ⟨0, 0, 0, 0⟩

def g_XMZero : XMVECTOR := XMVectorZero

def XMVectorSet (x y z w : ℚ) : XMVECTOR := ⟨x, y, z, w⟩

def XMVectorSetW (v : XMVECTOR) (w : ℚ) : XMVECTOR := ⟨v.x, v.y, v.z, w⟩

def XMVectorReplicate (s : ℚ) : XMVECTOR := ⟨s, s, s, s⟩

def XMVectorGetX (v : XMVECTOR) : ℚ := v.x

def XMVectorGetW (v : XMVECTOR) : ℚ := v.w

def XMVectorAbs (v : XMVECTOR) : XMVECTOR := ⟨|v.x|, |v.y|, |v.z|, |v.w|⟩

def XMVectorAdd (a b : XMVECTOR) : XMVECTOR := ⟨a.x + b.x, a.y + b.y, a.z + b.z, a.w + b.w⟩

def XMVectorDivide (a b : XMVECTOR) : XMVECTOR := ⟨a.x / b.x, a.y / b.y, a.z / b.z, a.w / b.w⟩

def XMVectorLess (a b : XMVECTOR) : XMMASK :=
  ⟨decide (a.x < b.x), decide (a.y < b.y), decide (a.z < b.z), decide (a.w < b.w)⟩

def XMVectorLessOrEqual (a b : XMVECTOR) : XMMASK :=
  ⟨decide (a.x ≤ b.x), decide (a.y ≤ b.y), decide (a.z ≤ b.z), decide (a.w ≤ b.w)⟩

/-- XMVectorSelect(V1, V2, Control): lane i of the result is V2's lane where the
control mask is set and V1's lane where it is clear. -/
def XMVectorSelect (v1 v2 : XMVECTOR) (control : XMMASK) : XMVECTOR :=
  ⟨if control.mx then v2.x else v1.x,
   if control.my then v2.y else v1.y,
   if control.mz then v2.z else v1.z,
   if control.mw then v2.w else v1.w⟩

def XMVector2Equal (a b : XMVECTOR) : Bool := decide (a.x = b.x ∧ a.y = b.y)

def XMVector2NotEqual (a b : XMVECTOR) : Bool := decide (a.x ≠ b.x ∨ a.y ≠ b.y)

def XMVector2Less (a b : XMVECTOR) : Bool := decide (a.x < b.x ∧ a.y < b.y)

def XMVector2LessOrEqual (a b : XMVECTOR) : Bool := decide (a.x ≤ b.x ∧ a.y ≤ b.y)

def XMVector2Greater (a b : XMVECTOR) : Bool := decide (b.x < a.x ∧ b.y < a.y)

def XMVector2GreaterOrEqual (a b : XMVECTOR) : Bool := decide (b.x ≤ a.x ∧ b.y ≤ a.y)

/-- XMVector2Dot: the 2D dot product x1*x2 + y1*y2 replicated into every lane. -/
def XMVector2Dot (a b : XMVECTOR) : XMVECTOR :=
  XMVectorReplicate (a.x * b.x + a.y * b.y)

/-- XMVector2Cross: the 2D cross product scalar x1*y2 - y1*x2 replicated into
every lane. -/
def XMVector2Cross (a b : XMVECTOR) : XMVECTOR :=
  XMVectorReplicate (a.x * b.y - a.y * b.x)

/-- XMVector3Cross: the 3D cross product, with the w lane set to zero. -/
def XMVector3Cross (a b : XMVECTOR) : XMVECTOR :=
  ⟨a.y * b.z - a.z * b.y,
   a.z * b.x - a.x * b.z,
   a.x * b.y - a.y * b.x,
   0⟩

def XMQuaternionIdentity : XMVECTOR := ⟨0, 0, 0, 1⟩

/-- XMQuaternionMultiply(Q1, Q2) returns the Hamilton product Q2 x Q1 (second
argument times first), exactly as the DirectXMath reference implementation
computes it componentwise. -/
def XMQuaternionMultiply (q1 q2 : XMVECTOR) : XMVECTOR :=
  ⟨q2.w * q1.x + q2.x * q1.w + q2.y * q1.z - q2.z * q1.y,
   q2.w * q1.y - q2.x * q1.z + q2.y * q1.w + q2.z * q1.x,
   q2.w * q1.z + q2.x * q1.y - q2.y * q1.x + q2.z * q1.w,
   q2.w * q1.w - q2.x * q1.x - q2.y * q1.y - q2.z * q1.z⟩

def XMQuaternionConjugate (q : XMVECTOR) : XMVECTOR := ⟨-q.x, -q.y, -q.z, q.w⟩

def XMVector4LengthSq (q : XMVECTOR) : XMVECTOR :=
  XMVectorReplicate (q.x * q.x + q.y * q.y + q.z * q.z + q.w * q.w)

/-- Lane value of the DirectXMath constant g_XMEpsilon; the float literal
1.192092896e-7f rounds to 2^-23 exactly. -/
def epsilonLane : ℚ := 1 / 2 ^ 23

def g_XMEpsilon : XMVECTOR := XMVectorReplicate epsilonLane

/-- XMQuaternionInverse: conjugate divided by the squared length, with the
result forced to zero when the squared length is at or below g_XMEpsilon
(rational division by zero yields zero, but that lane is overridden by the
select in exactly the cases where it arises, matching the reference code's
final XMVectorSelect). -/
def XMQuaternionInverse (q : XMVECTOR) : XMVECTOR :=
  let L := XMVector4LengthSq q
  let conjugate := XMQuaternionConjugate q
  let control := XMVectorLessOrEqual L g_XMEpsilon
  let result := XMVectorDivide conjugate L
  XMVectorSelect result g_XMZero control

/-- XMVector3Rotate(V, RotationQuaternion): embeds V as the pure quaternion
(V.x, V.y, V.z, 0) and conjugates, exactly as the DirectXMath reference
implementation chains XMQuaternionMultiply. -/
def XMVector3Rotate (V rotationQuaternion : XMVECTOR) : XMVECTOR :=
  let A : XMVECTOR := ⟨V.x, V.y, V.z, 0⟩
  let Q := XMQuaternionConjugate rotationQuaternion
  let result := XMQuaternionMultiply Q A
  XMQuaternionMultiply result rotationQuaternion

end DirectX

namespace King

open DirectX

/-- FloatPoint2: 2-lane float point over the 4-lane storage (MathSIMD.h line
567).  Only the wrapped XMVECTOR state is modelled. -/
structure FloatPoint2 where
  v : XMVECTOR
deriving DecidableEq, Repr

namespace FloatPoint2

/-- Set(x, y) (line 680): v = XMVectorSet(x, y, 0, 0); the two-float
constructor routes here. -/
def set2 (x y : ℚ) : FloatPoint2 := ⟨XMVectorSet x y 0 0⟩

/-- FloatPoint2(const XMVECTOR&) constructor (line 595): lanes copied as-is. -/
def ofVector (vec : XMVECTOR) : FloatPoint2 := ⟨vec⟩

/-- IsZero (line 691): XMVector2Equal(v, g_XMZero). -/
def IsZero (p : FloatPoint2) : Bool := XMVector2Equal p.v g_XMZero

/-- SetZeroIfNear (line 676): the source computes the mask and the select but
never stores the select's result back into v, so the state is returned
unchanged. -/
def SetZeroIfNear (p : FloatPoint2) (epsilon : ℚ) : FloatPoint2 :=
  let mask := XMVectorLess (XMVectorAbs p.v) (XMVectorReplicate epsilon)
  let _discarded := XMVectorSelect p.v XMVectorZero mask
  p

/-- Comparison operators (lines 623-628): per-lane DirectX 2-lane tests. -/
def ltOp (a b : FloatPoint2) : Bool := XMVector2Less a.v b.v

def leOp (a b : FloatPoint2) : Bool := XMVector2LessOrEqual a.v b.v

def gtOp (a b : FloatPoint2) : Bool := XMVector2Greater a.v b.v

def geOp (a b : FloatPoint2) : Bool := XMVector2GreaterOrEqual a.v b.v

def eqOp (a b : FloatPoint2) : Bool := XMVector2Equal a.v b.v

def neOp (a b : FloatPoint2) : Bool := XMVector2NotEqual a.v b.v

/-- Instance DotProduct (line 694): scalar x-lane of XMVector2Dot (the debug
assert on NaN has no effect on the returned value). -/
def DotProduct (a b : FloatPoint2) : ℚ := XMVectorGetX (XMVector2Dot a.v b.v)

/-- Instance CrossProduct (line 695): FloatPoint2(XMVector3Cross(v, vecIn)),
lanes copied as-is by the XMVECTOR constructor. -/
def CrossProduct (a b : FloatPoint2) : FloatPoint2 := ofVector (XMVector3Cross a.v b.v)

/-- Static DotProduct (line 704): FloatPoint2(XMVector2Dot(a, b)), the dot
scalar replicated into every lane. -/
def DotProductStatic (a b : FloatPoint2) : FloatPoint2 := ofVector (XMVector2Dot a.v b.v)

/-- Static CrossProduct (line 705): FloatPoint2(XMVector2Cross(a, b)), the 2D
cross scalar replicated into every lane. -/
def CrossProductStatic (a b : FloatPoint2) : FloatPoint2 := ofVector (XMVector2Cross a.v b.v)

end FloatPoint2

/-- FloatPoint3 (line 714): 3-lane float point over the same 4-lane storage. -/
structure FloatPoint3 where
  v : XMVECTOR
deriving DecidableEq, Repr

namespace FloatPoint3

/-- Set(x, y, z) (line 805): v = XMVectorSet(x, y, z, 0). -/
def set3 (x y z : ℚ) : FloatPoint3 := ⟨XMVectorSet x y z 0⟩

/-- FloatPoint3(const XMVECTOR) constructor (line 736): the w lane is forced
to zero. -/
def ofVector (vec : XMVECTOR) : FloatPoint3 := ⟨XMVectorSetW vec 0⟩

/-- IsZero (line 816): the source calls XMVector2Equal(v, g_XMZero), the
2-lane equality, so only the x and y lanes are compared. -/
def IsZero (p : FloatPoint3) : Bool := XMVector2Equal p.v g_XMZero

end FloatPoint3

/-- FloatPoint4 (line 841): 4-lane float point. -/
structure FloatPoint4 where
  v : XMVECTOR
deriving DecidableEq, Repr

namespace FloatPoint4

/-- Set(x, y, z, w) (line 936): v = XMVectorSet(x, y, z, w). -/
def set4 (x y z w : ℚ) : FloatPoint4 := ⟨XMVectorSet x y z w⟩

/-- IsZero (line 948): the source calls XMVector2Equal(v, g_XMZero), the
2-lane equality, so only the x and y lanes are compared. -/
def IsZero (p : FloatPoint4) : Bool := XMVector2Equal p.v g_XMZero

end FloatPoint4

/-- Quaternion (line 995): rotation type over the same 4-lane storage,
lanes (x, y, z, w) with w the scalar part. -/
structure Quaternion where
  v : XMVECTOR
deriving DecidableEq, Repr

namespace Quaternion

/-- Default constructor (line 999): v = XMQuaternionIdentity(). -/
def identity : Quaternion := ⟨XMQuaternionIdentity⟩

def GetW (q : Quaternion) : ℚ := XMVectorGetW q.v

/-- Inverse (line 1041): Quaternion(XMQuaternionInverse(v)). -/
def Inverse (q : Quaternion) : Quaternion := ⟨XMQuaternionInverse q.v⟩

/-- operator* (Quaternion, line 1019): Quaternion(XMQuaternionMultiply(v, rhs)). -/
def mulOp (a b : Quaternion) : Quaternion := ⟨XMQuaternionMultiply a.v b.v⟩

/-- operator+ (Quaternion, line 1018): Quaternion(XMQuaternionMultiply(v, rhs)). -/
def addOp (a b : Quaternion) : Quaternion := ⟨XMQuaternionMultiply a.v b.v⟩

/-- operator- (Quaternion, line 1017): *this * rhs.Inverse(). -/
def subOp (a b : Quaternion) : Quaternion := mulOp a (Inverse b)

/-- operator/ (Quaternion, line 1021): *this * rhs.Inverse(). -/
def divOp (a b : Quaternion) : Quaternion := mulOp a (Inverse b)

/-- operator*= (line 1025): *this = *this * rhs. -/
def mulAssign (a b : Quaternion) : Quaternion := mulOp a b

/-- operator+= (line 1027): *this = *this * rhs. -/
def addAssign (a b : Quaternion) : Quaternion := mulOp a b

/-- operator-= (line 1028): *this = *this * rhs.Inverse(). -/
def subAssign (a b : Quaternion) : Quaternion := mulOp a (Inverse b)

/-- operator/= (line 1026): *this = *this * rhs.Inverse(). -/
def divAssign (a b : Quaternion) : Quaternion := mulOp a (Inverse b)

/-- operator* (FloatPoint3, line 1023): FloatPoint3(XMVector3Rotate(rhs, v)). -/
def rotate3 (q : Quaternion) (rhs : FloatPoint3) : FloatPoint3 :=
  FloatPoint3.ofVector (XMVector3Rotate rhs.v q.v)

/-- GetAngleQuaternion (line 1048): 2 * XMScalarACos(GetW()).  XMScalarACos is
the DirectXMath polynomial approximation of the real arccosine (max error
below 3e-5); it is modelled here by the exact arccosine, which the range
claims are insensitive to. -/
noncomputable def GetAngleQuaternion (q : Quaternion) : ℝ :=
  2 * Real.arccos (q.GetW : ℝ)

end Quaternion

end King

namespace KingE

/-- Extended lane model for the validity / NaN-policy claims: a single float
lane is either a finite value (exact, as a rational), +Infinity, -Infinity,
or NaN. -/
inductive Flt where
  | fin (q : ℚ)
  | inf
  | ninf
  | nan
deriving DecidableEq, Repr

namespace Flt

def isNaN : Flt → Bool
  | nan => true
  | _ => false

def isInf : Flt → Bool
  | inf => true
  | ninf => true
  | _ => false

/-- Absolute value of a lane (std::abs / XMVectorAbs semantics: abs of NaN is
NaN, abs of either infinity is +Infinity). -/
def fabs : Flt → Flt
  | fin q => fin |q|
  | inf => inf
  | ninf => inf
  | nan => nan

/-- IEEE-754 less-than: any comparison involving NaN is false. -/
def flt : Flt → Flt → Bool
  | nan, _ => false
  | _, nan => false
  | ninf, ninf => false
  | ninf, _ => true
  | _, ninf => false
  | inf, _ => false
  | fin _, inf => true
  | fin a, fin b => decide (a < b)

/-- IEEE-754 greater-or-equal: false when either operand is NaN, otherwise the
negation of less-than. -/
def fge (a b : Flt) : Bool :=
  if a.isNaN || b.isNaN then false else !(flt a b)

end Flt

/-- Extended-lane model of DirectX::XMVECTOR. -/
structure Vec4 where
  x : Flt
  y : Flt
  z : Flt
  w : Flt
deriving DecidableEq, Repr

def XMVector2IsNaN (v : Vec4) : Bool := v.x.isNaN || v.y.isNaN

def XMVector2IsInfinite (v : Vec4) : Bool := v.x.isInf || v.y.isInf

def XMVector4IsNaN (v : Vec4) : Bool := v.x.isNaN || v.y.isNaN || v.z.isNaN || v.w.isNaN

def XMVector4IsInfinite (v : Vec4) : Bool := v.x.isInf || v.y.isInf || v.z.isInf || v.w.isInf

def XMQuaternionIsNaN (v : Vec4) : Bool := XMVector4IsNaN v

def XMQuaternionIdentityE : Vec4 := ⟨Flt.fin 0, Flt.fin 0, Flt.fin 0, Flt.fin 1⟩

/-- FloatPoint2 in the extended-lane model, for the validity conversions. -/
structure FloatPoint2 where
  v : Vec4
deriving DecidableEq, Repr

namespace FloatPoint2

/-- Set(x, y) with finite lane values: lanes z and w are zero-filled. -/
def set2 (x y : Flt) : FloatPoint2 := ⟨⟨x, y, Flt.fin 0, Flt.fin 0⟩⟩

/-- operator bool (line 607): valid, i.e. no NaN and no Infinity in the two
logical lanes. -/
def toBool (p : FloatPoint2) : Bool :=
  !(XMVector2IsNaN p.v) && !(XMVector2IsInfinite p.v)

/-- operator! (line 608): invalid, i.e. some NaN or some Infinity in the two
logical lanes. -/
def bang (p : FloatPoint2) : Bool :=
  XMVector2IsNaN p.v || XMVector2IsInfinite p.v

end FloatPoint2

/-- FloatPoint4 in the extended-lane model. -/
structure FloatPoint4 where
  v : Vec4
deriving DecidableEq, Repr

namespace FloatPoint4

def set4 (x y z w : Flt) : FloatPoint4 := ⟨⟨x, y, z, w⟩⟩

/-- operator bool (line 878): valid, over all four lanes. -/
def toBool (p : FloatPoint4) : Bool :=
  !(XMVector4IsNaN p.v) && !(XMVector4IsInfinite p.v)

/-- operator! (line 879): invalid, over all four lanes. -/
def bang (p : FloatPoint4) : Bool :=
  XMVector4IsNaN p.v || XMVector4IsInfinite p.v

end FloatPoint4

/-- Quaternion in the extended-lane model, for Validate and the bool
conversion. -/
structure Quaternion where
  v : Vec4
deriving DecidableEq, Repr

namespace Quaternion

def identity : Quaternion := ⟨XMQuaternionIdentityE⟩

def GetW (q : Quaternion) : Flt := q.v.w

/-- Validate (line 1044): if XMQuaternionIsNaN(v) then v is reset to the
identity quaternion, otherwise the state is untouched. -/
def Validate (q : Quaternion) : Quaternion :=
  if XMQuaternionIsNaN q.v then ⟨XMQuaternionIdentityE⟩ else q

/-- Lane value of the float literal 0.999998f in the quaternion bool
conversion, modelled by its decimal value (the rounding of the literal to
float is irrelevant to the claims, which use w in {0, 1, NaN}). -/
def wThreshold : ℚ := 0.999998

/-- operator bool (line 1030): abs(GetW()) < 0.999998f. -/
def toBool (q : Quaternion) : Bool :=
  Flt.flt (Flt.fabs q.GetW) (Flt.fin wThreshold)

/-- operator! (line 1031): abs(GetW()) >= 0.999998f. -/
def bang (q : Quaternion) : Bool :=
  Flt.fge (Flt.fabs q.GetW) (Flt.fin wThreshold)

end Quaternion

end KingE

/-- C1: the spec says IsZero is exact equality to the zero vector on every
logical lane of FloatPoint2/3/4.  FloatPoint2's IsZero is indeed that test on
its two logical lanes (third conjunct), but FloatPoint3::IsZero and
FloatPoint4::IsZero call the 2-lane XMVector2Equal, so the vectors (0,0,1)
and (0,0,0,1), whose z respectively w lane is 1 and not 0, are reported as
zero: the code contradicts the claimed behaviour at these inputs. -/
theorem claim1_isZero_ignores_z :
    King.FloatPoint3.IsZero (King.FloatPoint3.set3 0 0 1) = true ∧
    King.FloatPoint4.IsZero (King.FloatPoint4.set4 0 0 0 1) = true ∧
    (∀ x y : ℚ, King.FloatPoint2.IsZero (King.FloatPoint2.set2 x y) = true ↔ x = 0 ∧ y = 0) := by
  refine ⟨?_, ?_, ?_⟩
  · simp [King.FloatPoint3.IsZero, King.FloatPoint3.set3, DirectX.XMVector2Equal,
      DirectX.XMVectorSet, DirectX.g_XMZero, DirectX.XMVectorZero]
  · simp [King.FloatPoint4.IsZero, King.FloatPoint4.set4, DirectX.XMVector2Equal,
      DirectX.XMVectorSet, DirectX.g_XMZero, DirectX.XMVectorZero]
  · intro x y
    simp [King.FloatPoint2.IsZero, King.FloatPoint2.set2, DirectX.XMVector2Equal,
      DirectX.XMVectorSet, DirectX.g_XMZero, DirectX.XMVectorZero]

/-- C2: the claim says that after SetZeroIfNear(e) every lane with absolute
value below e is exactly 0.  The source computes the near-zero mask and the
select but never stores the result, so the vector is returned unchanged: at
v = (0.00001, 1) with e = 0.00005 the x lane satisfies abs(x) < e and x is
not 0, yet the state after the call still equals v. -/
theorem claim2_setZeroIfNear_noop :
    King.FloatPoint2.SetZeroIfNear (King.FloatPoint2.set2 (1/100000) 1) (1/20000)
      = King.FloatPoint2.set2 (1/100000) 1 ∧
    |(1/100000 : ℚ)| < 1/20000 ∧ (1/100000 : ℚ) ≠ 0 := by
  refine ⟨?_, by rw [abs_of_pos] <;> norm_num, by norm_num⟩
  simp [King.FloatPoint2.SetZeroIfNear]

/-- C3: the claim (and the class's own doc comment) say rotating v by (q * p)
equals rotating v by p and then by q.  With p = 1+i, q = 1+j, v = (1,0,0):
the code's q * p passes (q, p) to XMQuaternionMultiply, which returns the
Hamilton product p x q, so the rotation applies q first and then p, giving
(0, 4, 0); applying p first and then q gives (0, 0, -4).  All lane values are
small integers, on which float arithmetic is exact. -/
theorem claim3_composition_order :
    King.Quaternion.rotate3
        (King.Quaternion.mulOp ⟨⟨0, 1, 0, 1⟩⟩ ⟨⟨1, 0, 0, 1⟩⟩)
        (King.FloatPoint3.set3 1 0 0)
      = King.FloatPoint3.set3 0 4 0 ∧
    King.Quaternion.rotate3 ⟨⟨0, 1, 0, 1⟩⟩
        (King.Quaternion.rotate3 ⟨⟨1, 0, 0, 1⟩⟩ (King.FloatPoint3.set3 1 0 0))
      = King.FloatPoint3.set3 0 0 (-4) ∧
    King.FloatPoint3.set3 0 4 0 ≠ King.FloatPoint3.set3 0 0 (-4) := by
  refine ⟨?_, ?_, ?_⟩
  · simp [King.Quaternion.rotate3, King.Quaternion.mulOp, DirectX.XMVector3Rotate,
      DirectX.XMQuaternionMultiply, DirectX.XMQuaternionConjugate, King.FloatPoint3.set3,
      King.FloatPoint3.ofVector, DirectX.XMVectorSetW, DirectX.XMVectorSet]
    norm_num
  · simp [King.Quaternion.rotate3, King.Quaternion.mulOp, DirectX.XMVector3Rotate,
      DirectX.XMQuaternionMultiply, DirectX.XMQuaternionConjugate, King.FloatPoint3.set3,
      King.FloatPoint3.ofVector, DirectX.XMVectorSetW, DirectX.XMVectorSet]
    norm_num
  · simp [King.FloatPoint3.set3, DirectX.XMVectorSet]

/-- C4 counterexample: the claim says GetAngleQuaternion always lies in
[0, +pi].  At the quaternion with w = -1 (and zero vector part) the code
returns 2 * acos(-1) = 2 * pi, which is strictly greater than pi. -/
theorem claim4_angle_cex :
    King.Quaternion.GetAngleQuaternion ⟨DirectX.XMVectorSet 0 0 0 (-1)⟩ = 2 * Real.pi ∧
    Real.pi < 2 * Real.pi := by
  constructor
  · show 2 * Real.arccos (((-1 : ℚ) : ℝ)) = 2 * Real.pi
    push_cast
    rw [Real.arccos_neg_one]
  · linarith [Real.pi_pos]

/-- C4 amended: GetAngleQuaternion returns 2 * acos(w), which always lies in
[0, 2*pi]; it lies in [0, pi] whenever the scalar lane w is non-negative
(in particular for every quaternion built by SetAxisAngle with an angle in
[0, pi]). -/
theorem claim4_angle_range (q : King.Quaternion) :
    0 ≤ King.Quaternion.GetAngleQuaternion q ∧
    King.Quaternion.GetAngleQuaternion q ≤ 2 * Real.pi ∧
    (0 ≤ q.GetW → King.Quaternion.GetAngleQuaternion q ≤ Real.pi) := by
  unfold King.Quaternion.GetAngleQuaternion
  refine ⟨?_, ?_, ?_⟩
  · have h := Real.arccos_nonneg ((q.GetW : ℚ) : ℝ)
    linarith
  · have h := Real.arccos_le_pi ((q.GetW : ℚ) : ℝ)
    linarith
  · intro hw
    have hw' : (0 : ℝ) ≤ ((q.GetW : ℚ) : ℝ) := by exact_mod_cast hw
    have h := (Real.arccos_le_pi_div_two (x := ((q.GetW : ℚ) : ℝ))).mpr hw'
    linarith

/-- C4 witness: the amended theorem applied at the identity quaternion, whose
scalar lane is 1 and therefore non-negative. -/
theorem claim4_angle_range_wit :
    0 ≤ King.Quaternion.identity.GetW ∧
    King.Quaternion.GetAngleQuaternion King.Quaternion.identity ≤ Real.pi := by
  have hw : 0 ≤ King.Quaternion.identity.GetW := by
    norm_num [King.Quaternion.GetW, King.Quaternion.identity, DirectX.XMVectorGetW,
      DirectX.XMQuaternionIdentity]
  exact ⟨hw, (claim4_angle_range King.Quaternion.identity).2.2 hw⟩

/-- C5: for FloatPoint2 and FloatPoint4 the bool conversion is true exactly
when no logical lane is NaN and no logical lane is an infinity, operator! is
its exact negation, and the concrete vectors (1, Infinity) and (1, 2) are
invalid respectively valid. -/
theorem claim5_validity_bool :
    (∀ p : KingE.FloatPoint2, KingE.FloatPoint2.toBool p = true ↔
      (p.v.x.isNaN = false ∧ p.v.y.isNaN = false ∧
       p.v.x.isInf = false ∧ p.v.y.isInf = false)) ∧
    (∀ p : KingE.FloatPoint2, KingE.FloatPoint2.bang p = !(KingE.FloatPoint2.toBool p)) ∧
    (∀ p : KingE.FloatPoint4, KingE.FloatPoint4.toBool p = true ↔
      (p.v.x.isNaN = false ∧ p.v.y.isNaN = false ∧ p.v.z.isNaN = false ∧ p.v.w.isNaN = false ∧
       p.v.x.isInf = false ∧ p.v.y.isInf = false ∧ p.v.z.isInf = false ∧ p.v.w.isInf = false)) ∧
    (∀ p : KingE.FloatPoint4, KingE.FloatPoint4.bang p = !(KingE.FloatPoint4.toBool p)) ∧
    KingE.FloatPoint2.toBool (KingE.FloatPoint2.set2 (KingE.Flt.fin 1) KingE.Flt.inf) = false ∧
    KingE.FloatPoint2.toBool (KingE.FloatPoint2.set2 (KingE.Flt.fin 1) (KingE.Flt.fin 2)) = true := by
  refine ⟨?_, ?_, ?_, ?_, ?_, ?_⟩
  · intro p
    simp [KingE.FloatPoint2.toBool, KingE.XMVector2IsNaN, KingE.XMVector2IsInfinite]
    tauto
  · intro p
    simp [KingE.FloatPoint2.bang, KingE.FloatPoint2.toBool]
  · intro p
    simp [KingE.FloatPoint4.toBool, KingE.XMVector4IsNaN, KingE.XMVector4IsInfinite]
    tauto
  · intro p
    simp [KingE.FloatPoint4.bang, KingE.FloatPoint4.toBool]
  · simp [KingE.FloatPoint2.toBool, KingE.FloatPoint2.set2, KingE.XMVector2IsNaN,
      KingE.XMVector2IsInfinite, KingE.Flt.isNaN, KingE.Flt.isInf]
  · simp [KingE.FloatPoint2.toBool, KingE.FloatPoint2.set2, KingE.XMVector2IsNaN,
      KingE.XMVector2IsInfinite, KingE.Flt.isNaN, KingE.Flt.isInf]

/-- C6 counterexample: the claim says the static FloatPoint2::CrossProduct
equals the instance CrossProduct lane for lane.  At a = (1,0), b = (0,1) the
static form (XMVector2Cross) replicates the cross scalar 1 into every lane
while the instance form (XMVector3Cross) leaves lane x at 0, so the two
results differ in lane x. -/
theorem claim6_static_cross_cex :
    (King.FloatPoint2.CrossProductStatic (King.FloatPoint2.set2 1 0)
      (King.FloatPoint2.set2 0 1)).v.x = 1 ∧
    (King.FloatPoint2.CrossProduct (King.FloatPoint2.set2 1 0)
      (King.FloatPoint2.set2 0 1)).v.x = 0 ∧
    King.FloatPoint2.CrossProductStatic (King.FloatPoint2.set2 1 0) (King.FloatPoint2.set2 0 1)
      ≠ King.FloatPoint2.CrossProduct (King.FloatPoint2.set2 1 0) (King.FloatPoint2.set2 0 1) := by
  refine ⟨?_, ?_, ?_⟩
  · simp [King.FloatPoint2.CrossProductStatic, King.FloatPoint2.set2, King.FloatPoint2.ofVector,
      DirectX.XMVector2Cross, DirectX.XMVectorReplicate, DirectX.XMVectorSet]
  · simp [King.FloatPoint2.CrossProduct, King.FloatPoint2.set2, King.FloatPoint2.ofVector,
      DirectX.XMVector3Cross, DirectX.XMVectorSet]
  · intro h
    have hx := congrArg (fun p => p.v.x) h
    simp [King.FloatPoint2.CrossProductStatic, King.FloatPoint2.CrossProduct,
      King.FloatPoint2.set2, King.FloatPoint2.ofVector, DirectX.XMVector2Cross,
      DirectX.XMVector3Cross, DirectX.XMVectorReplicate, DirectX.XMVectorSet] at hx

/-- C6 amended: for every pair of FloatPoint2 values, every lane of the static
DotProduct equals the instance DotProduct's scalar result, and the static
CrossProduct is the 2D cross scalar replicated into all four lanes, that
scalar being exactly the z lane of the instance CrossProduct; the two cross
forms are not lane-for-lane identical. -/
theorem claim6_static_instance_agree (a b : King.FloatPoint2) :
    King.FloatPoint2.DotProductStatic a b
      = King.FloatPoint2.ofVector (DirectX.XMVectorReplicate (King.FloatPoint2.DotProduct a b)) ∧
    King.FloatPoint2.CrossProductStatic a b
      = King.FloatPoint2.ofVector
          (DirectX.XMVectorReplicate ((King.FloatPoint2.CrossProduct a b).v.z)) :=
  ⟨rfl, rfl⟩

/-- C7: Validate is total and fail-soft: a quaternion with any NaN lane is
reset to the identity (w = 1, x = y = z = 0), and a quaternion with no NaN
lane is left unchanged. -/
theorem claim7_validate_failsoft (q : KingE.Quaternion) :
    ((q.v.x.isNaN = true ∨ q.v.y.isNaN = true ∨ q.v.z.isNaN = true ∨ q.v.w.isNaN = true) →
      q.Validate = KingE.Quaternion.identity) ∧
    (¬(q.v.x.isNaN = true ∨ q.v.y.isNaN = true ∨ q.v.z.isNaN = true ∨ q.v.w.isNaN = true) →
      q.Validate = q) := by
  constructor
  · intro h
    have hb : KingE.XMQuaternionIsNaN q.v = true := by
      simp [KingE.XMQuaternionIsNaN, KingE.XMVector4IsNaN]
      tauto
    simp [KingE.Quaternion.Validate, hb, KingE.Quaternion.identity]
  · intro h
    have hb : KingE.XMQuaternionIsNaN q.v = false := by
      simp only [Bool.not_eq_true, not_or] at h
      simp [KingE.XMQuaternionIsNaN, KingE.XMVector4IsNaN]
      tauto
    simp [KingE.Quaternion.Validate, hb]

/-- C7 witness: the fail-soft theorem applied at the concrete quaternion whose
x lane is NaN, which Validate resets to the identity. -/
theorem claim7_validate_wit :
    ((⟨⟨KingE.Flt.nan, KingE.Flt.fin 0, KingE.Flt.fin 0, KingE.Flt.fin 0⟩⟩ :
        KingE.Quaternion).v.x.isNaN = true ∨
      (⟨⟨KingE.Flt.nan, KingE.Flt.fin 0, KingE.Flt.fin 0, KingE.Flt.fin 0⟩⟩ :
        KingE.Quaternion).v.y.isNaN = true ∨
      (⟨⟨KingE.Flt.nan, KingE.Flt.fin 0, KingE.Flt.fin 0, KingE.Flt.fin 0⟩⟩ :
        KingE.Quaternion).v.z.isNaN = true ∨
      (⟨⟨KingE.Flt.nan, KingE.Flt.fin 0, KingE.Flt.fin 0, KingE.Flt.fin 0⟩⟩ :
        KingE.Quaternion).v.w.isNaN = true) ∧
    (⟨⟨KingE.Flt.nan, KingE.Flt.fin 0, KingE.Flt.fin 0, KingE.Flt.fin 0⟩⟩ :
        KingE.Quaternion).Validate = KingE.Quaternion.identity :=
  ⟨Or.inl rfl,
   (claim7_validate_failsoft
     ⟨⟨KingE.Flt.nan, KingE.Flt.fin 0, KingE.Flt.fin 0, KingE.Flt.fin 0⟩⟩).1 (Or.inl rfl)⟩

/-- C8 counterexample: the claim says every relational operator, including
operator!=, is true exactly when every logical lane satisfies the relation.
At a = (1, 1), b = (1, 2) the code's operator!= returns true, yet lane x does
not satisfy the relation (1 is not different from 1), so operator!= is not an
all-lanes test. -/
theorem claim8_neOp_cex :
    King.FloatPoint2.neOp (King.FloatPoint2.set2 1 1) (King.FloatPoint2.set2 1 2) = true ∧
    ¬(((1 : ℚ) ≠ 1) ∧ ((1 : ℚ) ≠ 2)) := by
  constructor
  · simp [King.FloatPoint2.neOp, King.FloatPoint2.set2, DirectX.XMVector2NotEqual,
      DirectX.XMVectorSet]
  · norm_num

/-- C8 amended: operators ==, <, <=, >, >= are per-lane all-lanes tests on the
two logical lanes (never magnitude comparisons); operator!= is the exact
negation of operator==, i.e. true when some lane differs.  The concrete cases
(1,5) < (2,10) = true and (1,5) < (2,3) = false hold. -/
theorem claim8_perlane (a b : King.FloatPoint2) :
    (King.FloatPoint2.ltOp a b = true ↔ a.v.x < b.v.x ∧ a.v.y < b.v.y) ∧
    (King.FloatPoint2.leOp a b = true ↔ a.v.x ≤ b.v.x ∧ a.v.y ≤ b.v.y) ∧
    (King.FloatPoint2.gtOp a b = true ↔ b.v.x < a.v.x ∧ b.v.y < a.v.y) ∧
    (King.FloatPoint2.geOp a b = true ↔ b.v.x ≤ a.v.x ∧ b.v.y ≤ a.v.y) ∧
    (King.FloatPoint2.eqOp a b = true ↔ a.v.x = b.v.x ∧ a.v.y = b.v.y) ∧
    (King.FloatPoint2.neOp a b = !(King.FloatPoint2.eqOp a b)) ∧
    King.FloatPoint2.ltOp (King.FloatPoint2.set2 1 5) (King.FloatPoint2.set2 2 10) = true ∧
    King.FloatPoint2.ltOp (King.FloatPoint2.set2 1 5) (King.FloatPoint2.set2 2 3) = false := by
  refine ⟨?_, ?_, ?_, ?_, ?_, ?_, ?_, ?_⟩
  · simp [King.FloatPoint2.ltOp, DirectX.XMVector2Less]
  · simp [King.FloatPoint2.leOp, DirectX.XMVector2LessOrEqual]
  · simp [King.FloatPoint2.gtOp, DirectX.XMVector2Greater]
  · simp [King.FloatPoint2.geOp, DirectX.XMVector2GreaterOrEqual]
  · simp [King.FloatPoint2.eqOp, DirectX.XMVector2Equal]
  · simp only [King.FloatPoint2.neOp, King.FloatPoint2.eqOp, DirectX.XMVector2NotEqual,
      DirectX.XMVector2Equal, ← decide_not]
    exact decide_eq_decide.mpr (by tauto)
  · simp [King.FloatPoint2.ltOp, King.FloatPoint2.set2, DirectX.XMVector2Less,
      DirectX.XMVectorSet]
    norm_num
  · simp [King.FloatPoint2.ltOp, King.FloatPoint2.set2, DirectX.XMVector2Less,
      DirectX.XMVectorSet]
    norm_num

/-- C9 counterexample: the claim says the quaternion's operator! returns the
exact negation of the bool conversion.  At a quaternion whose w lane is NaN,
abs(w) < 0.999998 and abs(w) >= 0.999998 are both false under IEEE
comparison, so operator bool and operator! both return false: operator! is
not the negation there. -/
theorem claim9_quatBool_cex :
    KingE.Quaternion.toBool
      ⟨⟨KingE.Flt.fin 0, KingE.Flt.fin 0, KingE.Flt.fin 0, KingE.Flt.nan⟩⟩ = false ∧
    KingE.Quaternion.bang
      ⟨⟨KingE.Flt.fin 0, KingE.Flt.fin 0, KingE.Flt.fin 0, KingE.Flt.nan⟩⟩ = false ∧
    KingE.Quaternion.bang
        ⟨⟨KingE.Flt.fin 0, KingE.Flt.fin 0, KingE.Flt.fin 0, KingE.Flt.nan⟩⟩
      ≠ !(KingE.Quaternion.toBool
        ⟨⟨KingE.Flt.fin 0, KingE.Flt.fin 0, KingE.Flt.fin 0, KingE.Flt.nan⟩⟩) := by
  refine ⟨rfl, rfl, ?_⟩
  simp [KingE.Quaternion.bang, KingE.Quaternion.toBool, KingE.Quaternion.GetW,
    KingE.Flt.fabs, KingE.Flt.fge, KingE.Flt.flt, KingE.Flt.isNaN]

/-- C9 amended: the quaternion bool conversion tests rotation presence, not
validity: with a finite w lane it is true exactly when abs(w) < 0.999998;
operator! is its exact negation whenever w is not NaN; the identity
quaternion converts to false; and when w is NaN both conversions return
false (so operator! fails to negate only there). -/
theorem claim9_quatBool (q : KingE.Quaternion) :
    (∀ a : ℚ, KingE.Quaternion.toBool ⟨⟨q.v.x, q.v.y, q.v.z, KingE.Flt.fin a⟩⟩
      = decide (|a| < KingE.Quaternion.wThreshold)) ∧
    (q.GetW.isNaN = false → KingE.Quaternion.bang q = !(KingE.Quaternion.toBool q)) ∧
    KingE.Quaternion.toBool KingE.Quaternion.identity = false ∧
    (q.GetW.isNaN = true →
      KingE.Quaternion.toBool q = false ∧ KingE.Quaternion.bang q = false) := by
  obtain ⟨⟨x, y, z, w⟩⟩ := q
  refine ⟨fun a => rfl, ?_, ?_, ?_⟩
  · intro hw
    cases w <;> simp_all [KingE.Quaternion.bang, KingE.Quaternion.toBool, KingE.Quaternion.GetW,
      KingE.Flt.fabs, KingE.Flt.fge, KingE.Flt.flt, KingE.Flt.isNaN]
  · simp [KingE.Quaternion.toBool, KingE.Quaternion.identity, KingE.Quaternion.GetW,
      KingE.XMQuaternionIdentityE, KingE.Flt.fabs, KingE.Flt.flt, KingE.Quaternion.wThreshold]
    norm_num
  · intro hw
    cases w <;> simp_all [KingE.Quaternion.bang, KingE.Quaternion.toBool, KingE.Quaternion.GetW,
      KingE.Flt.fabs, KingE.Flt.fge, KingE.Flt.flt, KingE.Flt.isNaN]

/-- C9 witness: the amended theorem applied at the identity quaternion, whose
w lane (the finite value 1) is not NaN, so operator! is the negation there. -/
theorem claim9_quatBool_wit :
    KingE.Quaternion.identity.GetW.isNaN = false ∧
    KingE.Quaternion.bang KingE.Quaternion.identity
      = !(KingE.Quaternion.toBool KingE.Quaternion.identity) :=
  ⟨rfl, (claim9_quatBool KingE.Quaternion.identity).2.1 rfl⟩

/-- C10: the quaternion operators +, -, /, and the compound assignments are
rotation-composition overloads: a + b is exactly a * b (quaternion
multiplication), and a - b and a / b are exactly a * b.Inverse(); the final
conjunct shows at a concrete pair that this differs from FloatPoint4's
per-lane addition. -/
theorem claim10_rotation_overloads :
    (∀ a b : King.Quaternion,
      King.Quaternion.addOp a b = King.Quaternion.mulOp a b ∧
      King.Quaternion.subOp a b = King.Quaternion.mulOp a (King.Quaternion.Inverse b) ∧
      King.Quaternion.divOp a b = King.Quaternion.mulOp a (King.Quaternion.Inverse b) ∧
      King.Quaternion.addAssign a b = King.Quaternion.mulOp a b ∧
      King.Quaternion.subAssign a b = King.Quaternion.mulOp a (King.Quaternion.Inverse b) ∧
      King.Quaternion.divAssign a b = King.Quaternion.mulOp a (King.Quaternion.Inverse b)) ∧
    King.Quaternion.addOp ⟨⟨1, 0, 0, 0⟩⟩ ⟨⟨0, 1, 0, 0⟩⟩
      ≠ ⟨DirectX.XMVectorAdd ⟨1, 0, 0, 0⟩ ⟨0, 1, 0, 0⟩⟩ := by
  constructor
  · exact fun a b => ⟨rfl, rfl, rfl, rfl, rfl, rfl⟩
  · intro h
    have hx := congrArg (fun p => p.v.x) h
    simp [King.Quaternion.addOp, DirectX.XMQuaternionMultiply, DirectX.XMVectorAdd] at hx
